import Mathlib

/-!
Shallow embedding of the `aws_ollama` CLI: `cli/utils/stack.py` (stack
orchestration) and `cli/build_stack.py` (entry point and key-pair
provisioning).

The cloud provider (boto3) is modelled by a record of pre-determined
responses for the calls a single run makes; the local filesystem is a map
from paths to files; the unbounded polling loop receives explicit fuel,
with fuel exhaustion standing for a loop that is still polling.
-/

/-- A botocore `ClientError`: `code` models `e.response['Error']['Code']`
and `msg` models the full string rendering `str(e)` of the exception. -/
structure ClientError where
  code : String
  msg : String
deriving DecidableEq, Repr

/-- A Python exception escaping the functions modelled here: a (re-)raised
`ClientError`, or a `KeyError` from subscripting a response dict. -/
inductive PyErr where
  | clientError (e : ClientError)
  | keyError (key : String)
deriving DecidableEq, Repr

/-- Do the characters `cs` start with the characters `pat`? -/
def charsStartWith : List Char → List Char → Bool
  | [], _ => true
  | _ :: _, [] => false
  | p :: ps, c :: cs => p = c && charsStartWith ps cs

/-- Do the characters `cs` contain `pat` as a contiguous run? -/
def charsContain (pat : List Char) : List Char → Bool
  | [] => charsStartWith pat []
  | c :: cs => charsStartWith pat (c :: cs) || charsContain pat cs

/-- Python's substring test `pat in s` on strings. -/
def strContains (s pat : String) : Bool :=
  charsContain pat.toList s.toList

/-- `stack_status in ['CREATE_COMPLETE', 'UPDATE_COMPLETE']`
(`wait_for_stack_completion`, stack.py line 91). -/
def isSuccessStatus (s : String) : Bool :=
  s = "CREATE_COMPLETE" || s = "UPDATE_COMPLETE"

/-- `'FAILED' in stack_status or stack_status in ['ROLLBACK_COMPLETE',
'UPDATE_ROLLBACK_COMPLETE']` (`wait_for_stack_completion`, stack.py line 94). -/
def isFailureStatus (s : String) : Bool :=
  strContains s "FAILED" || s = "ROLLBACK_COMPLETE" || s = "UPDATE_ROLLBACK_COMPLETE"

/-- A status on which the polling loop breaks. -/
def isTerminalStatus (s : String) : Bool :=
  isSuccessStatus s || isFailureStatus s

/-- `wait_for_stack_completion` (stack.py lines 80-99).  `statuses i` is the
`StackStatus` reported by the i-th `describe_stacks` call of the loop.  The
result is the status the loop broke on together with the total time slept
(10 units per non-terminal poll); `none` means the fuel ran out with the
loop still polling (the source loop has no bound of its own). -/
def wait_for_stack_completion (statuses : Nat → String) : Nat → Option (String × Nat)
  | 0 => none
  | fuel + 1 =>
    let stack_status := statuses 0
    if isSuccessStatus stack_status then some (stack_status, 0)
    else if isFailureStatus stack_status then some (stack_status, 0)
    else
      match wait_for_stack_completion (fun i => statuses (i + 1)) fuel with
      | some (s, slept) => some (s, slept + 10)
      | none => none

/-- `does_stack_exist` (stack.py lines 102-116).  `describeResult` is the
outcome of the `describe_stacks(StackName=stack_name)` call. -/
def does_stack_exist (describeResult : Except ClientError Unit) : Except ClientError Bool :=
  match describeResult with
  | .ok _ => .ok true
  | .error e =>
    if e.code = "ValidationError" then .ok false
    else .error e

/-- Python dict assignment `d[k] = v`: overwrite the entry for `k` in place
if present, append it otherwise. -/
def dict_set : List (String × String) → String → String → List (String × String)
  | [], k, v => [(k, v)]
  | (k', v') :: rest, k, v =>
    if k' = k then (k, v) :: rest else (k', v') :: dict_set rest k v

/-- The dict-building loop of `get_stack_outputs` (stack.py lines 130-133):
`output_dict[output['OutputKey']] = output['OutputValue']` over the outputs. -/
def get_stack_outputs_dict (outputs : List (String × String)) : List (String × String) :=
  outputs.foldl (fun d output => dict_set d output.1 output.2) []

/-- `get_stack_outputs` (stack.py lines 119-138).  `describeResult` models the
`describe_stacks` call: a `ClientError`, or `Stacks[0]` with `none` when the
response carries no `'Outputs'` key (subscripting it then raises `KeyError`,
which the `except ClientError` clause does not catch). -/
def get_stack_outputs (describeResult : Except ClientError (Option (List (String × String)))) :
    Except PyErr (Option (List (String × String))) :=
  match describeResult with
  | .ok (some outputs) => .ok (some (get_stack_outputs_dict outputs))
  | .ok none => .error (.keyError "Outputs")
  | .error _ => .ok none

/-- The provider's behaviour during one run: pre-determined responses to the
calls `deploy_stack` and its helpers make, plus the template files readable
by `read_template_file`. -/
structure CFEnv where
  /-- Outcome of the existence check's `describe_stacks` call. -/
  describeExist : Except ClientError Unit
  /-- Outcome of `update_stack` (the `StackId` on success). -/
  updateResult : Except ClientError String
  /-- Outcome of `create_stack` (the `StackId` on success). -/
  createResult : Except ClientError String
  /-- `StackStatus` reported by the i-th poll of the waiting loop. -/
  statuses : Nat → String
  /-- Outcome of the final `describe_stacks` of `get_stack_outputs`. -/
  describeOutputs : Except ClientError (Option (List (String × String)))
  /-- Contents of local files, for `read_template_file`. -/
  template_files : String → String

/-- `read_template_file` (stack.py lines 30-38): return the file's contents. -/
def read_template_file (files : String → String) (file_path : String) : String :=
  files file_path

/-- `deploy_cloudformation_stack` (stack.py lines 40-78).  Returns the stack
id, or `none` when the submission was a no-op or failed; an error raised by
the existence check propagates (its `try` blocks cover only the update and
create calls). -/
def deploy_cloudformation_stack (env : CFEnv) (stack_name template_body : String)
    (parameters : List (String × String)) : Except PyErr (Option String) :=
  match does_stack_exist env.describeExist with
  | .error e => .error (.clientError e)
  | .ok true =>
    match env.updateResult with
    | .ok response => .ok (some response)
    | .error e =>
      if e.code = "ValidationError" ∧ strContains e.msg "No updates are to be performed" = true then
        -- "No updates to perform."
        .ok none
      else
        -- "Error updating stack: {e}"
        .ok none
  | .ok false =>
    match env.createResult with
    | .ok response => .ok (some response)
    | .error _ =>
      -- "Error creating stack: {e}"
      .ok none

/-- Python truthiness of an optional string (`None` and `''` are falsy). -/
def pyTruthy : Option String → Bool
  | none => false
  | some s => !(s = "" : Bool)

/-- What `deploy_stack` evaluates to: the returned value (`.result`), or
`.polling` when the fuel ran out inside the un-bounded waiting loop. -/
inductive DeployOutcome where
  | result (r : Option (List (String × String)))
  | polling
deriving DecidableEq, Repr

/-- `deploy_stack` (stack.py lines 156-171): read the template, submit the
create/update, and — when a truthy stack id came back — wait for completion
and return `get_stack_outputs`; otherwise return `None`. -/
def deploy_stack (env : CFEnv) (stack_name template_file : String)
    (parameters : List (String × String)) (fuel : Nat) : Except PyErr DeployOutcome :=
  let template_body := read_template_file env.template_files template_file
  match deploy_cloudformation_stack env stack_name template_body parameters with
  | .error e => .error e
  | .ok stack_id =>
    if pyTruthy stack_id then
      match wait_for_stack_completion env.statuses fuel with
      | none => .ok .polling
      | some _ => Except.map DeployOutcome.result (get_stack_outputs env.describeOutputs)
    else
      .ok (.result none)

/-- The fields of `datetime.now()` that `strftime('%Y%m%d%H')` consumes. -/
structure PyDatetime where
  year : Nat
  month : Nat
  day : Nat
  hour : Nat
deriving DecidableEq, Repr

/-- Zero-pad a number to two digits, as `%m`, `%d` and `%H` do. -/
def pad2 (n : Nat) : String :=
  if n < 10 then "0" ++ toString n else toString n

/-- Zero-pad a number to four digits, as `%Y` does. -/
def pad4 (n : Nat) : String :=
  if n < 10 then "000" ++ toString n
  else if n < 100 then "00" ++ toString n
  else if n < 1000 then "0" ++ toString n
  else toString n

/-- `datetime.now().strftime('%Y%m%d%H')` at the instant `t`. -/
def strftimeYmdH (t : PyDatetime) : String :=
  pad4 t.year ++ pad2 t.month ++ pad2 t.day ++ pad2 t.hour

/-- `generate_keypair_name` (build_stack.py lines 97-99). -/
def generate_keypair_name (stack_name : String) (now : PyDatetime) : String :=
  let current_date := strftimeYmdH now
  stack_name ++ "-" ++ current_date ++ "-keypair"

/-- A file on the local filesystem: its contents and its permission mode. -/
structure KeyFile where
  content : String
  mode : Nat
deriving DecidableEq, Repr

/-- `open(path, 'w')` followed by a full write: replace the contents, keeping
the mode of an existing file and creating a fresh file with `createMode`
(the process's umask-dependent default). -/
def fsWrite (fs : String → Option KeyFile) (path content : String) (createMode : Nat) :
    String → Option KeyFile :=
  fun p =>
    if p = path then
      match fs path with
      | some f => some ⟨content, f.mode⟩
      | none => some ⟨content, createMode⟩
    else fs p

/-- `os.chmod(path, mode)` on a file that exists. -/
def fsChmod (fs : String → Option KeyFile) (path : String) (mode : Nat) :
    String → Option KeyFile :=
  fun p =>
    if p = path then (fs path).map (fun f => ⟨f.content, mode⟩)
    else fs p

/-- `create_keypair` (build_stack.py lines 69-87).  `keypairResp` models the
`ec2_client.create_key_pair` call (`KeyMaterial` on success).  Returns the
Python return value — `(keypair_name, key_file_path)` or `None` — together
with the filesystem after the run. -/
def create_keypair (keypairResp : Except ClientError String) (keypair_name save_path : String)
    (createMode : Nat) (fs : String → Option KeyFile) :
    Option (String × String) × (String → Option KeyFile) :=
  match keypairResp with
  | .ok private_key =>
    let key_file_path := save_path ++ "/" ++ keypair_name ++ ".pem"
    let fs1 := fsWrite fs key_file_path private_key createMode
    let fs2 := fsChmod fs1 key_file_path 0o400
    (some (keypair_name, key_file_path), fs2)
  | .error _ =>
    -- "Error creating keypair: {e}"
    (none, fs)

/-- Python `a or b` where both operands are optional strings. -/
def pyOr : Option String → Option String → Option String
  | some s, b => if s = "" then b else some s
  | none, b => b

/-- Python `a or b` where the fallback is a plain string. -/
def pyOrS : Option String → String → String
  | some s, b => if s = "" then b else s
  | none, b => b

/-- The parsed command-line arguments of `main` (build_stack.py lines 112-125);
optional flags that were not passed are `none`, `keypair_save_path` defaults
to `"."`. -/
structure CliArgs where
  access_key : Option String
  secret_key : Option String
  region : String
  stack_name : String
  instance_type : String
  hosted_zone_id : String
  hosted_zone_name : String
  basic_auth_username : String
  basic_auth_password : String
  keypair_name : Option String
  keypair_save_path : String

/-- The process environment after `load_dotenv`: the variables `main` reads
with `os.getenv`, `none` when unset. -/
structure OsEnv where
  aws_access_key_id : Option String
  aws_secret_access_key : Option String
  aws_region : Option String

/-- The externally visible calls `main` makes, in order. -/
inductive MainEvent where
  | initSession
  | createKeyPairCall (keypair_name : String)
  | deployStackCall
deriving DecidableEq, Repr

/-- Equality on `Except` results is decidable when it is on both sides. -/
instance {ε α : Type} [DecidableEq ε] [DecidableEq α] : DecidableEq (Except ε α) := fun x y =>
  match x, y with
  | .ok a, .ok b =>
    if h : a = b then .isTrue (congrArg Except.ok h)
    else .isFalse (fun hc => h (Except.ok.inj hc))
  | .error a, .error b =>
    if h : a = b then .isTrue (congrArg Except.error h)
    else .isFalse (fun hc => h (Except.error.inj hc))
  | .ok _, .error _ => .isFalse (fun hc => Except.noConfusion hc)
  | .error _, .ok _ => .isFalse (fun hc => Except.noConfusion hc)

/-- How a run of `main` ends. -/
inductive MainOutcome where
  /-- `ValueError("AWS credentials must be provided ...")` (line 134). -/
  | valueError
  /-- `TypeError`: the two-variable unpacking on line 143 received `None`. -/
  | typeError
  /-- `RuntimeError("Key pair creation failed.")` (line 145). -/
  | runtimeError
  /-- `deploy_stack` was called and the run continued with its result. -/
  | ranDeploy (r : Except PyErr DeployOutcome)
deriving DecidableEq, Repr

/-- Module-level constant (build_stack.py line 36). -/
def STACK_TEMPLATE_FILE : String := "./templates/stack.yaml"

/-- The `template_parameters` list of `main` (build_stack.py lines 148-157). -/
def template_parameters_of (args : CliArgs) (created_keypair_name : String) :
    List (String × String) :=
  [("Region", args.region),
   ("HostedZoneId", args.hosted_zone_id),
   ("HostedZoneName", args.hosted_zone_name),
   ("InstanceType", args.instance_type),
   ("KeyPairName", created_keypair_name),
   ("SubdomainName", args.stack_name),
   ("BasicAuthUser", args.basic_auth_username),
   ("BasicAuthPassword", args.basic_auth_password)]

/-- `main` (build_stack.py lines 110-173), from credential resolution to the
`deploy_stack` call.  Returns the provider calls made, in order, and the
outcome.  `created_keypair_name, created_keypair_path = create_keypair(...)`
raises `TypeError` when `create_keypair` returned `None`, so the
`RuntimeError` branch is only reached when the unpacking succeeded with a
falsy first component. -/
def main_run (args : CliArgs) (osenv : OsEnv) (now : PyDatetime)
    (keypairResp : Except ClientError String) (createMode : Nat)
    (fs : String → Option KeyFile) (cf : CFEnv) (fuel : Nat) :
    List MainEvent × MainOutcome :=
  let aws_access_key_id := pyOr args.access_key osenv.aws_access_key_id
  let aws_secret_access_key := pyOr args.secret_key osenv.aws_secret_access_key
  let _aws_region := pyOr (some args.region) osenv.aws_region
  if !(pyTruthy aws_access_key_id && pyTruthy aws_secret_access_key) then
    ([], .valueError)
  else
    -- init_session(...)
    let keypair_name := pyOrS args.keypair_name (generate_keypair_name args.stack_name now)
    let ckp := create_keypair keypairResp keypair_name args.keypair_save_path createMode fs
    match ckp.1 with
    | none =>
      ([.initSession, .createKeyPairCall keypair_name], .typeError)
    | some (created_keypair_name, _created_keypair_path) =>
      if created_keypair_name = "" then
        ([.initSession, .createKeyPairCall keypair_name], .runtimeError)
      else
        ([.initSession, .createKeyPairCall keypair_name, .deployStackCall],
         .ranDeploy (deploy_stack cf args.stack_name STACK_TEMPLATE_FILE
           (template_parameters_of args created_keypair_name) fuel))

/-- One unfolding of the polling loop, with the two `break` conditions
merged into `isTerminalStatus`. -/
theorem wait_succ_eq (statuses : Nat → String) (fuel : Nat) :
    wait_for_stack_completion statuses (fuel + 1) =
      if isTerminalStatus (statuses 0) then some (statuses 0, 0)
      else
        match wait_for_stack_completion (fun i => statuses (i + 1)) fuel with
        | some (s, slept) => some (s, slept + 10)
        | none => none := by
  by_cases hs : isSuccessStatus (statuses 0)
  · simp [wait_for_stack_completion, isTerminalStatus, hs]
  · by_cases hf : isFailureStatus (statuses 0)
    · simp [wait_for_stack_completion, isTerminalStatus, hs, hf]
    · simp [wait_for_stack_completion, isTerminalStatus, hs, hf]

/-- The polling loop yields `(s, t)` exactly when some poll index `i` within
the fuel is the first terminal status, `s` is that status and `t` is the
`10 * i` time units slept on the way there. -/
theorem wait_some_iff (fuel : Nat) (statuses : Nat → String) (s : String) (t : Nat) :
    wait_for_stack_completion statuses fuel = some (s, t) ↔
      ∃ i, i < fuel ∧ (∀ j, j < i → isTerminalStatus (statuses j) = false) ∧
        isTerminalStatus (statuses i) = true ∧ s = statuses i ∧ t = 10 * i := by
  induction fuel generalizing statuses s t with
  | zero => simp [wait_for_stack_completion]
  | succ fuel ih =>
    rw [wait_succ_eq]
    by_cases hterm : isTerminalStatus (statuses 0)
    · rw [if_pos hterm]
      constructor
      · intro h
        rw [Option.some.injEq, Prod.mk.injEq] at h
        exact ⟨0, Nat.succ_pos fuel, fun j hj => absurd hj (Nat.not_lt_zero j),
          hterm, h.1.symm, by omega⟩
      · rintro ⟨i, _, hpre, hti, hs, ht⟩
        cases i with
        | zero => rw [hs, ht]
        | succ i' =>
          have h0 := hpre 0 (Nat.succ_pos i')
          rw [h0] at hterm; cases hterm
    · have hterm' : isTerminalStatus (statuses 0) = false := by simpa using hterm
      rw [if_neg hterm]
      cases hw : wait_for_stack_completion (fun i => statuses (i + 1)) fuel with
      | none =>
        simp only [hw]
        constructor
        · intro h; cases h
        · rintro ⟨i, hi, hpre, hti, hs, ht⟩
          cases i with
          | zero => rw [hterm'] at hti; cases hti
          | succ i' =>
            have hshift : wait_for_stack_completion (fun k => statuses (k + 1)) fuel =
                some (statuses (i' + 1), 10 * i') :=
              (ih (fun k => statuses (k + 1)) (statuses (i' + 1)) (10 * i')).mpr
                ⟨i', by omega, fun j hj => hpre (j + 1) (by omega), hti, rfl, rfl⟩
            rw [hw] at hshift; cases hshift
      | some st =>
        obtain ⟨s', t'⟩ := st
        simp only [hw]
        obtain ⟨i', hi', hpre', hti', hs', ht'⟩ :=
          (ih (fun k => statuses (k + 1)) s' t').mp hw
        constructor
        · intro h
          rw [Option.some.injEq, Prod.mk.injEq] at h
          refine ⟨i' + 1, by omega, ?_, hti', ?_, ?_⟩
          · intro j hj
            cases j with
            | zero => exact hterm'
            | succ j' => exact hpre' j' (by omega)
          · rw [← h.1]; exact hs'
          · omega
        · rintro ⟨i, hi, hpre, hti, hs, ht⟩
          cases i with
          | zero => rw [hterm'] at hti; cases hti
          | succ i2 =>
            have heq : i2 = i' := by
              by_contra hne
              rcases Nat.lt_or_ge i2 i' with hlt | hge
              · have hfalse := hpre' i2 hlt
                rw [hfalse] at hti; cases hti
              · have hfalse := hpre (i' + 1) (by omega)
                rw [hfalse] at hti'; cases hti'
            subst heq
            rw [Option.some.injEq, Prod.mk.injEq]
            exact ⟨by rw [hs, hs'], by omega⟩

/-- The polling loop is still running after `fuel` polls exactly when none of
those polls returned a terminal status: nothing but a terminal status ends it. -/
theorem wait_none_iff (fuel : Nat) (statuses : Nat → String) :
    wait_for_stack_completion statuses fuel = none ↔
      ∀ j, j < fuel → isTerminalStatus (statuses j) = false := by
  induction fuel generalizing statuses with
  | zero => simp [wait_for_stack_completion]
  | succ fuel ih =>
    rw [wait_succ_eq]
    by_cases hterm : isTerminalStatus (statuses 0)
    · rw [if_pos hterm]
      constructor
      · intro h; cases h
      · intro h
        have h0 := h 0 (Nat.succ_pos fuel)
        rw [h0] at hterm; cases hterm
    · have hterm' : isTerminalStatus (statuses 0) = false := by simpa using hterm
      rw [if_neg hterm]
      cases hw : wait_for_stack_completion (fun i => statuses (i + 1)) fuel with
      | none =>
        simp only [hw]
        constructor
        · intro _ j hj
          cases j with
          | zero => exact hterm'
          | succ j' => exact (ih (fun k => statuses (k + 1))).mp hw j' (by omega)
        · intro _; trivial
      | some st =>
        obtain ⟨s', t'⟩ := st
        simp only [hw]
        constructor
        · intro h; cases h
        · intro h
          obtain ⟨i', _, _, hti', _, _⟩ :=
            (wait_some_iff fuel (fun k => statuses (k + 1)) s' t').mp hw
          have hfalse := h (i' + 1) (by omega)
          rw [hfalse] at hti'; cases hti'

/-- Assigning a key that is not yet in the dict appends the pair. -/
theorem dict_set_of_key_not_mem (d : List (String × String)) (k v : String)
    (h : k ∉ d.map Prod.fst) : dict_set d k v = d ++ [(k, v)] := by
  induction d with
  | nil => rfl
  | cons kv rest ih =>
    obtain ⟨k', v'⟩ := kv
    simp only [List.map_cons, List.mem_cons] at h
    push_neg at h
    rw [dict_set, if_neg (fun hh => h.1 hh.symm), ih h.2]
    rfl

/-- Folding pairwise-distinct keys into a dict that shares none of them just
appends those pairs in order. -/
theorem dict_fold_app (outputs : List (String × String)) : ∀ acc : List (String × String),
    (outputs.map Prod.fst).Nodup →
    (∀ k, k ∈ acc.map Prod.fst → k ∉ outputs.map Prod.fst) →
    outputs.foldl (fun d output => dict_set d output.1 output.2) acc = acc ++ outputs := by
  induction outputs with
  | nil => intro acc _ _; simp
  | cons kv rest ih =>
    intro acc hnd hdisj
    obtain ⟨k, v⟩ := kv
    simp only [List.map_cons, List.nodup_cons] at hnd
    have hk_not_acc : k ∉ acc.map Prod.fst := fun hmem => hdisj k hmem (by simp)
    simp only [List.foldl_cons]
    rw [dict_set_of_key_not_mem acc k v hk_not_acc]
    rw [ih (acc ++ [(k, v)]) hnd.2 ?hdisj]
    · simp
    case hdisj =>
      intro k' hk' hk'rest
      simp only [List.map_append, List.mem_append] at hk'
      rcases hk' with h1 | h1
      · exact hdisj k' h1 (by simp [hk'rest])
      · simp only [List.map_cons, List.map_nil, List.mem_singleton] at h1
        subst h1
        exact hnd.1 hk'rest

/-- When the provider reports pairwise-distinct output keys, the dict built
by `get_stack_outputs` is that output list, unchanged. -/
theorem get_stack_outputs_dict_nodup (outputs : List (String × String))
    (h : (outputs.map Prod.fst).Nodup) : get_stack_outputs_dict outputs = outputs := by
  rw [get_stack_outputs_dict, dict_fold_app outputs [] h (by simp)]
  rfl

/-- A generated key-pair name is never the empty string (it ends in the
`-keypair` suffix). -/
theorem generate_keypair_name_ne_empty (stack_name : String) (now : PyDatetime) :
    generate_keypair_name stack_name now ≠ "" := by
  intro h
  have hlen := congrArg String.length h
  simp only [generate_keypair_name, String.length_append] at hlen
  have h8 : ("-keypair" : String).length = 8 := rfl
  have h0 : ("" : String).length = 0 := rfl
  rw [h8, h0] at hlen
  omega

/-- Claim C2: `does_stack_exist` returns `false` when the describe call
raises a `ClientError` with code `ValidationError`, returns `true` when the
describe call succeeds, and re-raises every other error. -/
theorem c2_does_stack_exist (u : Unit) (e eOther : ClientError)
    (hval : e.code = "ValidationError") (hother : eOther.code ≠ "ValidationError") :
    does_stack_exist (Except.ok u) = Except.ok true ∧
    does_stack_exist (Except.error e) = Except.ok false ∧
    does_stack_exist (Except.error eOther) = Except.error eOther := by
  refine ⟨rfl, ?_, ?_⟩
  · simp [does_stack_exist, hval]
  · simp [does_stack_exist, hother]

/-- Witness for C2 at a successful describe, a not-found `ValidationError`
and a throttling error. -/
theorem c2_does_stack_exist_witness :
    does_stack_exist (Except.ok ()) = Except.ok true ∧
    does_stack_exist
      (Except.error ⟨"ValidationError", "Stack with id demo does not exist"⟩) =
      Except.ok false ∧
    does_stack_exist (Except.error ⟨"Throttling", "Rate exceeded"⟩) =
      Except.error ⟨"Throttling", "Rate exceeded"⟩ :=
  c2_does_stack_exist () ⟨"ValidationError", "Stack with id demo does not exist"⟩
    ⟨"Throttling", "Rate exceeded"⟩ rfl (by decide)

/-- Claim C3: when the stack exists and the update call fails with the
`No updates are to be performed` `ValidationError`, `deploy_stack` returns
`None` without raising, for every fuel (in particular fuel `0`, so the
polling loop is never entered) and whatever statuses the poller would see. -/
theorem c3_no_updates_noop (env : CFEnv) (stack_name template_file : String)
    (parameters : List (String × String)) (fuel : Nat) (e : ClientError)
    (hexists : env.describeExist = Except.ok ())
    (hupd : env.updateResult = Except.error e)
    (hcode : e.code = "ValidationError")
    (hmsg : strContains e.msg "No updates are to be performed" = true) :
    deploy_stack env stack_name template_file parameters fuel =
      Except.ok (DeployOutcome.result none) := by
  simp [deploy_stack, deploy_cloudformation_stack, does_stack_exist,
    hexists, hupd, hcode, hmsg, pyTruthy]

/-- Provider behaviour for the C3 witness: existing stack, no-diff update. -/
def envC3 : CFEnv := {
  describeExist := .ok ()
  updateResult := .error ⟨"ValidationError",
    "An error occurred (ValidationError) when calling the UpdateStack operation: No updates are to be performed."⟩
  createResult := .ok "arn:aws:cloudformation:ap-southeast-2:123:stack/demo/abc"
  statuses := fun _ => "UPDATE_IN_PROGRESS"
  describeOutputs := .ok (some [("PublicIP", "203.0.113.7")])
  template_files := fun _ => "AWSTemplateFormatVersion: 2010-09-09" }

/-- Witness for C3 with fuel `0`: the result is already decided before any
poll could happen. -/
theorem c3_no_updates_noop_witness :
    deploy_stack envC3 "demo" STACK_TEMPLATE_FILE [] 0 =
      Except.ok (DeployOutcome.result none) :=
  c3_no_updates_noop envC3 "demo" STACK_TEMPLATE_FILE [] 0
    ⟨"ValidationError",
      "An error occurred (ValidationError) when calling the UpdateStack operation: No updates are to be performed."⟩
    rfl rfl rfl (by decide)

/-- Claim C4: the polling loop exits with `(s, t)` exactly when some poll `i`
within the fuel is the first to report a status in the success set
(`CREATE_COMPLETE`/`UPDATE_COMPLETE`) or the failure set (contains `FAILED`,
or is a rollback-complete variant), with `s` that status and `t = 10 * i`
the time slept in fixed 10-unit waits; and with no terminal status among the
first `fuel` polls it is still polling, whatever the fuel — no retry bound
of its own ever stops it. -/
theorem c4_polling_loop (statuses : Nat → String) (fuel : Nat) :
    (∀ s t, wait_for_stack_completion statuses fuel = some (s, t) ↔
      ∃ i, i < fuel ∧ (∀ j, j < i → isTerminalStatus (statuses j) = false) ∧
        isTerminalStatus (statuses i) = true ∧ s = statuses i ∧ t = 10 * i) ∧
    (wait_for_stack_completion statuses fuel = none ↔
      ∀ j, j < fuel → isTerminalStatus (statuses j) = false) :=
  ⟨fun s t => wait_some_iff fuel statuses s t, wait_none_iff fuel statuses⟩

/-- Status stream for the C4 witness: two in-progress polls, then success. -/
def pollDemoStatuses : Nat → String :=
  fun i => if i < 2 then "CREATE_IN_PROGRESS" else "CREATE_COMPLETE"

/-- Witness for C4: the loop exits on the third poll after 20 units slept. -/
theorem c4_polling_loop_witness :
    wait_for_stack_completion pollDemoStatuses 5 = some ("CREATE_COMPLETE", 20) :=
  ((c4_polling_loop pollDemoStatuses 5).1 "CREATE_COMPLETE" 20).mpr
    ⟨2, by decide, by decide, by decide, by decide, by decide⟩

/-- Claim C7: the generated key-pair name for stack `demo` at hour 14 on
2024-05-01 is exactly `demo-2024050114-keypair`. -/
theorem c7_generated_name :
    generate_keypair_name "demo" ⟨2024, 5, 1, 14⟩ = "demo-2024050114-keypair" := by
  rfl

/-- Provider behaviour refuting C1: the created stack rolls back
(failure-class terminal status on the first poll) yet still reports outputs. -/
def envC1 : CFEnv := {
  describeExist := .error ⟨"ValidationError", "Stack with id demo does not exist"⟩
  updateResult := .error ⟨"InternalFailure", "unused in this run"⟩
  createResult := .ok "arn:aws:cloudformation:ap-southeast-2:123:stack/demo/abc"
  statuses := fun _ => "ROLLBACK_COMPLETE"
  describeOutputs := .ok (some [("PublicIP", "203.0.113.7")])
  template_files := fun _ => "AWSTemplateFormatVersion: 2010-09-09" }

/-- Claim C1 counterexample: in a run whose first poll reports the
failure-class terminal status `ROLLBACK_COMPLETE`, `deploy_stack` does not
return `None` — `wait_for_stack_completion` returns nothing to distinguish
failure from success, so the outputs are fetched and returned anyway. -/
theorem c1_counterexample :
    isFailureStatus (envC1.statuses 0) = true ∧
    deploy_stack envC1 "demo" STACK_TEMPLATE_FILE [] 1 =
      Except.ok (DeployOutcome.result (some [("PublicIP", "203.0.113.7")])) ∧
    deploy_stack envC1 "demo" STACK_TEMPLATE_FILE [] 1 ≠
      Except.ok (DeployOutcome.result none) :=
  ⟨by decide, by decide, by decide⟩

/-- Claim C1 amended: when the polling loop reaches a failure-class terminal
status, the loop itself terminates without throwing, but `deploy_stack` then
queries the stack outputs exactly as on success and returns that query's
result (the provider's output map, `None` on a `ClientError`, or a raised
`KeyError` when the response has no outputs field). -/
theorem c1_amended (env : CFEnv) (stack_name template_file id s : String)
    (parameters : List (String × String)) (fuel t : Nat)
    (hsub : deploy_cloudformation_stack env stack_name
      (read_template_file env.template_files template_file) parameters = Except.ok (some id))
    (hid : id ≠ "")
    (hwait : wait_for_stack_completion env.statuses fuel = some (s, t))
    (hfail : isFailureStatus s = true) :
    deploy_stack env stack_name template_file parameters fuel =
      Except.map DeployOutcome.result (get_stack_outputs env.describeOutputs) := by
  have hsub' : deploy_cloudformation_stack env stack_name
      (env.template_files template_file) parameters = Except.ok (some id) := hsub
  simp only [deploy_stack, read_template_file, hsub', hwait]
  simp [pyTruthy, hid]

/-- Witness for the amended C1 at the rolled-back run of `envC1`. -/
theorem c1_amended_witness :
    deploy_stack envC1 "demo" STACK_TEMPLATE_FILE [] 1 =
      Except.map DeployOutcome.result (get_stack_outputs envC1.describeOutputs) :=
  c1_amended envC1 "demo" STACK_TEMPLATE_FILE
    "arn:aws:cloudformation:ap-southeast-2:123:stack/demo/abc" "ROLLBACK_COMPLETE" [] 1 0
    (by decide) (by decide) (by decide) (by decide)

/-- Claim C5: in a run reaching a success terminal status whose outputs
describe succeeds with pairwise-distinct output keys, `deploy_stack` returns
exactly the dict built from the provider's outputs, and that dict holds a
pair `(k, v)` iff the provider listed the output `(k, v)` — pure
pass-through, no transformation. -/
theorem c5_outputs_passthrough (env : CFEnv) (stack_name template_file id s : String)
    (parameters : List (String × String)) (fuel t : Nat)
    (outputs : List (String × String))
    (hsub : deploy_cloudformation_stack env stack_name
      (read_template_file env.template_files template_file) parameters = Except.ok (some id))
    (hid : id ≠ "")
    (hwait : wait_for_stack_completion env.statuses fuel = some (s, t))
    (hsucc : isSuccessStatus s = true)
    (houts : env.describeOutputs = Except.ok (some outputs))
    (hnodup : (outputs.map Prod.fst).Nodup) :
    deploy_stack env stack_name template_file parameters fuel =
      Except.ok (DeployOutcome.result (some (get_stack_outputs_dict outputs))) ∧
    ∀ k v, (k, v) ∈ get_stack_outputs_dict outputs ↔ (k, v) ∈ outputs := by
  constructor
  · have hsub' : deploy_cloudformation_stack env stack_name
        (env.template_files template_file) parameters = Except.ok (some id) := hsub
    simp only [deploy_stack, read_template_file, hsub', hwait]
    simp [pyTruthy, hid, get_stack_outputs, houts, Except.map]
  · intro k v
    rw [get_stack_outputs_dict_nodup outputs hnodup]

/-- Provider behaviour for the C5 witness: create succeeds on the first poll
and two outputs come back. -/
def envC5 : CFEnv := {
  describeExist := .error ⟨"ValidationError", "Stack with id demo does not exist"⟩
  updateResult := .error ⟨"InternalFailure", "unused in this run"⟩
  createResult := .ok "arn:aws:cloudformation:ap-southeast-2:123:stack/demo/abc"
  statuses := fun _ => "CREATE_COMPLETE"
  describeOutputs := .ok (some
    [("PublicIP", "203.0.113.7"), ("WebsiteURL", "https://demo.example.com")])
  template_files := fun _ => "AWSTemplateFormatVersion: 2010-09-09" }

/-- Witness for C5 on a successful create with two distinct output keys. -/
theorem c5_outputs_passthrough_witness :
    deploy_stack envC5 "demo" STACK_TEMPLATE_FILE [] 1 =
      Except.ok (DeployOutcome.result (some (get_stack_outputs_dict
        [("PublicIP", "203.0.113.7"), ("WebsiteURL", "https://demo.example.com")]))) ∧
    ∀ k v, (k, v) ∈ get_stack_outputs_dict
        [("PublicIP", "203.0.113.7"), ("WebsiteURL", "https://demo.example.com")] ↔
      (k, v) ∈ [("PublicIP", "203.0.113.7"), ("WebsiteURL", "https://demo.example.com")] :=
  c5_outputs_passthrough envC5 "demo" STACK_TEMPLATE_FILE
    "arn:aws:cloudformation:ap-southeast-2:123:stack/demo/abc" "CREATE_COMPLETE" [] 1 0
    [("PublicIP", "203.0.113.7"), ("WebsiteURL", "https://demo.example.com")]
    (by decide) (by decide) (by decide) (by decide) (by decide) (by decide)

/-- Claim C8: after a successful key-pair creation, `create_keypair` has
returned `(name, <save_path>/<name>.pem)` and the file at that path holds
exactly the provider's key material with mode `0o400` (owner read-only),
whatever mode the write itself created the file with. -/
theorem c8_keypair_file (key keypair_name save_path : String) (createMode : Nat)
    (fs : String → Option KeyFile) :
    (create_keypair (Except.ok key) keypair_name save_path createMode fs).1 =
      some (keypair_name, save_path ++ "/" ++ keypair_name ++ ".pem") ∧
    (create_keypair (Except.ok key) keypair_name save_path createMode fs).2
      (save_path ++ "/" ++ keypair_name ++ ".pem") = some ⟨key, 0o400⟩ := by
  constructor
  · rfl
  · simp only [create_keypair, fsChmod, fsWrite, if_pos rfl]
    cases fs (save_path ++ "/" ++ keypair_name ++ ".pem") <;> simp

/-- The key-pair name `main` passes to `create_keypair` is never empty:
either it is a non-empty explicit name, or it is a generated name, which
always carries the `-keypair` suffix. -/
theorem keypair_name_resolved_ne_empty (o : Option String) (stack_name : String)
    (t : PyDatetime) : pyOrS o (generate_keypair_name stack_name t) ≠ "" := by
  cases o with
  | none => exact generate_keypair_name_ne_empty stack_name t
  | some s =>
    by_cases hs : s = ""
    · simpa [pyOrS, hs] using generate_keypair_name_ne_empty stack_name t
    · simpa [pyOrS, hs] using hs

/-- No run of `main` ends in the explicit
`RuntimeError("Key pair creation failed.")`: when `create_keypair` fails it
returns `None`, the tuple unpacking raises `TypeError` first, and when it
succeeds the unpacked name is the non-empty name that was passed in. -/
theorem main_run_ne_runtime (args : CliArgs) (osenv : OsEnv) (now : PyDatetime)
    (keypairResp : Except ClientError String) (createMode : Nat)
    (fs : String → Option KeyFile) (cf : CFEnv) (fuel : Nat) :
    (main_run args osenv now keypairResp createMode fs cf fuel).2 ≠
      MainOutcome.runtimeError := by
  simp only [main_run]
  by_cases hcred : (!(pyTruthy (pyOr args.access_key osenv.aws_access_key_id) &&
      pyTruthy (pyOr args.secret_key osenv.aws_secret_access_key))) = true
  · rw [if_pos hcred]; simp
  · rw [if_neg hcred]
    cases hresp : keypairResp with
    | error e => simp [create_keypair]
    | ok key =>
      have hne := keypair_name_resolved_ne_empty args.keypair_name args.stack_name now
      simp [create_keypair, hne]

/-- Claim C10: when key-pair creation fails in a run that passed the
credential check, `main` aborts with the `TypeError` from unpacking `None`
into two variables, never reaching `deploy_stack`; and no run of `main`
whatsoever can reach the `RuntimeError("Key pair creation failed.")` raise,
which is dead code. -/
theorem c10_keypair_failure_typeerror (args : CliArgs) (osenv : OsEnv) (now : PyDatetime)
    (e : ClientError) (createMode : Nat) (fs : String → Option KeyFile)
    (cf : CFEnv) (fuel : Nat)
    (hacc : pyTruthy (pyOr args.access_key osenv.aws_access_key_id) = true)
    (hsec : pyTruthy (pyOr args.secret_key osenv.aws_secret_access_key) = true) :
    (main_run args osenv now (Except.error e) createMode fs cf fuel).2 =
      MainOutcome.typeError ∧
    MainEvent.deployStackCall ∉
      (main_run args osenv now (Except.error e) createMode fs cf fuel).1 ∧
    ∀ (args2 : CliArgs) (osenv2 : OsEnv) (now2 : PyDatetime)
      (keypairResp2 : Except ClientError String) (createMode2 : Nat)
      (fs2 : String → Option KeyFile) (cf2 : CFEnv) (fuel2 : Nat),
      (main_run args2 osenv2 now2 keypairResp2 createMode2 fs2 cf2 fuel2).2 ≠
        MainOutcome.runtimeError := by
  refine ⟨?_, ?_, fun args2 osenv2 now2 r2 cm2 fs2 cf2 fuel2 =>
    main_run_ne_runtime args2 osenv2 now2 r2 cm2 fs2 cf2 fuel2⟩
  · simp [main_run, hacc, hsec, create_keypair]
  · simp [main_run, hacc, hsec, create_keypair]

/-- Claim C9: with the access key and the secret key absent from both the
CLI arguments and the environment, `main` raises the credentials
`ValueError` with an empty call trace — no session is initialised, no key
pair is created and no stack operation is submitted. -/
theorem c9_missing_credentials (args : CliArgs) (osenv : OsEnv) (now : PyDatetime)
    (keypairResp : Except ClientError String) (createMode : Nat)
    (fs : String → Option KeyFile) (cf : CFEnv) (fuel : Nat)
    (hargA : args.access_key = none) (hargS : args.secret_key = none)
    (henvA : osenv.aws_access_key_id = none) (henvS : osenv.aws_secret_access_key = none) :
    main_run args osenv now keypairResp createMode fs cf fuel =
      ([], MainOutcome.valueError) := by
  simp [main_run, pyOr, pyTruthy, hargA, hargS, henvA, henvS]

/-- CLI arguments with no credential flags, for the C9 witness. -/
def argsNoCreds : CliArgs := {
  access_key := none
  secret_key := none
  region := "us-east-1"
  stack_name := "demo"
  instance_type := "t3.micro"
  hosted_zone_id := "Z123"
  hosted_zone_name := "example.com"
  basic_auth_username := "user"
  basic_auth_password := "pass"
  keypair_name := none
  keypair_save_path := "." }

/-- An environment providing none of the fallback variables. -/
def osenvEmpty : OsEnv := ⟨none, none, none⟩

/-- Witness for C9: no flags, no environment variables, empty trace. -/
theorem c9_missing_credentials_witness :
    main_run argsNoCreds osenvEmpty ⟨2024, 5, 1, 14⟩ (Except.ok "KEYMATERIAL") 0o664
      (fun _ => none) envC5 1 = ([], MainOutcome.valueError) :=
  c9_missing_credentials argsNoCreds osenvEmpty ⟨2024, 5, 1, 14⟩ (Except.ok "KEYMATERIAL")
    0o664 (fun _ => none) envC5 1 rfl rfl rfl rfl

/-- CLI arguments with explicit credentials and no key-pair name flag. -/
def argsWithCreds : CliArgs := {
  access_key := some "AKIAEXAMPLE"
  secret_key := some "topsecret"
  region := "us-east-1"
  stack_name := "demo"
  instance_type := "t3.micro"
  hosted_zone_id := "Z123"
  hosted_zone_name := "example.com"
  basic_auth_username := "user"
  basic_auth_password := "pass"
  keypair_name := none
  keypair_save_path := "." }

/-- Witness for C10 at concrete inputs: provider refuses the key pair
(duplicate name), the run ends in the unpacking `TypeError`. -/
theorem c10_keypair_failure_typeerror_witness :
    (main_run argsWithCreds osenvEmpty ⟨2024, 5, 1, 14⟩
      (Except.error ⟨"InvalidKeyPair.Duplicate", "The keypair already exists"⟩) 0o664
      (fun _ => none) envC5 1).2 = MainOutcome.typeError :=
  (c10_keypair_failure_typeerror argsWithCreds osenvEmpty ⟨2024, 5, 1, 14⟩
    ⟨"InvalidKeyPair.Duplicate", "The keypair already exists"⟩ 0o664
    (fun _ => none) envC5 1 (by decide) (by decide)).1

/-- CLI arguments that explicitly supply the empty string as key-pair name. -/
def argsEmptyKeypairName : CliArgs := {
  access_key := some "AKIAEXAMPLE"
  secret_key := some "topsecret"
  region := "us-east-1"
  stack_name := "demo"
  instance_type := "t3.micro"
  hosted_zone_id := "Z123"
  hosted_zone_name := "example.com"
  basic_auth_username := "user"
  basic_auth_password := "pass"
  keypair_name := some ""
  keypair_save_path := "." }

/-- Claim C6 counterexample: the key-pair name `""` supplied explicitly on
the CLI is falsy for Python `or`, so the generator is invoked after all and
the name used for creation is the generated one, not the supplied string. -/
theorem c6_counterexample :
    MainEvent.createKeyPairCall "" ∉
      (main_run argsEmptyKeypairName osenvEmpty ⟨2024, 5, 1, 14⟩ (Except.ok "KEYMATERIAL")
        0o664 (fun _ => none) envC5 1).1 ∧
    MainEvent.createKeyPairCall "demo-2024050114-keypair" ∈
      (main_run argsEmptyKeypairName osenvEmpty ⟨2024, 5, 1, 14⟩ (Except.ok "KEYMATERIAL")
        0o664 (fun _ => none) envC5 1).1 := by
  constructor <;> decide

/-- Claim C6 amended: for every non-empty explicitly supplied key-pair name
`s`, the name used for key-pair creation is exactly `s`, and the whole run
is independent of the clock — the generator's output is never consulted.
(An explicitly supplied empty string is falsy for Python `or` and falls
back to the generated name.) -/
theorem c6_explicit_name (args : CliArgs) (osenv : OsEnv) (now now2 : PyDatetime)
    (keypairResp : Except ClientError String) (createMode : Nat)
    (fs : String → Option KeyFile) (cf : CFEnv) (fuel : Nat) (s : String)
    (hacc : pyTruthy (pyOr args.access_key osenv.aws_access_key_id) = true)
    (hsec : pyTruthy (pyOr args.secret_key osenv.aws_secret_access_key) = true)
    (hname : args.keypair_name = some s) (hs : s ≠ "") :
    MainEvent.createKeyPairCall s ∈
      (main_run args osenv now keypairResp createMode fs cf fuel).1 ∧
    main_run args osenv now keypairResp createMode fs cf fuel =
      main_run args osenv now2 keypairResp createMode fs cf fuel := by
  have hkn : ∀ t : PyDatetime,
      pyOrS args.keypair_name (generate_keypair_name args.stack_name t) = s := by
    intro t; simp [pyOrS, hname, hs]
  constructor
  · simp only [main_run, hkn]
    simp only [hacc, hsec, Bool.and_self, Bool.not_true, Bool.false_eq_true, if_false]
    cases keypairResp with
    | error e => simp [create_keypair]
    | ok key => simp [create_keypair, hs]
  · simp only [main_run, hkn]

/-- CLI arguments with an explicit, non-empty key-pair name. -/
def argsExplicitKeypairName : CliArgs := {
  access_key := some "AKIAEXAMPLE"
  secret_key := some "topsecret"
  region := "us-east-1"
  stack_name := "demo"
  instance_type := "t3.micro"
  hosted_zone_id := "Z123"
  hosted_zone_name := "example.com"
  basic_auth_username := "user"
  basic_auth_password := "pass"
  keypair_name := some "ollama-key"
  keypair_save_path := "." }

/-- Witness for the amended C6: explicit name `ollama-key`, run unchanged
between two different clock readings. -/
theorem c6_explicit_name_witness :
    MainEvent.createKeyPairCall "ollama-key" ∈
      (main_run argsExplicitKeypairName osenvEmpty ⟨2024, 5, 1, 14⟩ (Except.ok "KEYMATERIAL")
        0o664 (fun _ => none) envC5 1).1 ∧
    main_run argsExplicitKeypairName osenvEmpty ⟨2024, 5, 1, 14⟩ (Except.ok "KEYMATERIAL")
        0o664 (fun _ => none) envC5 1 =
      main_run argsExplicitKeypairName osenvEmpty ⟨2031, 12, 31, 23⟩ (Except.ok "KEYMATERIAL")
        0o664 (fun _ => none) envC5 1 :=
  c6_explicit_name argsExplicitKeypairName osenvEmpty ⟨2024, 5, 1, 14⟩ ⟨2031, 12, 31, 23⟩
    (Except.ok "KEYMATERIAL") 0o664 (fun _ => none) envC5 1 "ollama-key"
    (by decide) (by decide) rfl (by decide)

/-- Witness for C8: a fresh key file written under the current directory. -/
theorem c8_keypair_file_witness :
    (create_keypair (Except.ok "KEYMATERIAL") "demo-keypair" "." 0o664 (fun _ => none)).1 =
      some ("demo-keypair", "./demo-keypair.pem") ∧
    (create_keypair (Except.ok "KEYMATERIAL") "demo-keypair" "." 0o664 (fun _ => none)).2
      "./demo-keypair.pem" = some ⟨"KEYMATERIAL", 0o400⟩ :=
  c8_keypair_file "KEYMATERIAL" "demo-keypair" "." 0o664 (fun _ => none)
